import Mathlib

/-!
# Verification of the Tegra platform bring-up slice

A shallow embedding of `src/platform/tegra/common/platform.c`: the static
memory-map table, the dynamic RAM-region resolver, the secure register
locator, the device register mapper, and the staged bring-up hooks.

Platform-specific constants that come from headers outside this file
(`platform/memmap.h`, `platform/gic.h`, `lk/init.h`, the timer selection)
are gathered into a `PlatformConfig` record, so theorems quantify over all
build configurations.  External collaborators (the physical-memory
allocator, the virtual memory manager, the secure-monitor transport) are
passed in as oracle functions, and each embedded function returns the trace
of calls it makes to them, so the claims about call order and call
arguments are statements about those traces.
-/

namespace Tegra

/-- Build-time constants taken from platform headers that are outside this
source file.  The theorems quantify over all values of these fields. -/
structure PlatformConfig where
  MEMBASE : Nat
  KERNEL_LOAD_OFFSET : Nat
  MEMSIZE : Nat
  KERNEL_BASE : Nat
  TEGRA_UARTA_BASE : Nat
  TEGRA_UARTA_SIZE : Nat
  GICC_BASE_VIRT : Nat
  GICD_BASE_VIRT : Nat
  GICC_SIZE : Nat
  GICD_SIZE : Nat
  PAGE_SIZE : Nat
  PAGE_SIZE_SHIFT : Nat
  LK_INIT_LEVEL_VM : Nat
  ARM_GENERIC_TIMER_INT : Nat
  ARCH_ARM64 : Bool
deriving Repr

/-- Flag bit for a dynamic initial mapping entry (`kernel/vm.h`). -/
def MMU_INITIAL_MAPPING_FLAG_DYNAMIC : Nat := 8

/-- Flag bit for a device initial mapping entry (`kernel/vm.h`). -/
def MMU_INITIAL_MAPPING_FLAG_DEVICE : Nat := 4

/-- Flag marking a pmm arena as kernel mapped (`kernel/vm.h`). -/
def PMM_ARENA_FLAG_KMAP : Nat := 1

/-- Request flag asking the vmm for a specific virtual address
(`kernel/vm.h`). -/
def VMM_FLAG_VALLOC_SPECIFIC : Nat := 2

/-- Arch mmu flags value for uncached device memory (`arch/mmu.h`). -/
def ARCH_MMU_FLAG_UNCACHED_DEVICE : Nat := 5

/-- Debug level CRITICAL (`debug.h`). -/
def CRITICAL : Nat := 0

/-- Debug level INFO (`debug.h`). -/
def INFO : Nat := 1

/-- One row of `mmu_initial_mappings`.  The C `name` field is a `char*`
that is NULL in the terminating sentinel entry, so it is modelled as an
`Option String`. -/
structure MmuInitialMapping where
  phys : Nat
  virt : Nat
  size : Nat
  flags : Nat
  name : Option String
deriving DecidableEq, Repr

/-- The all-zero entry terminating `mmu_initial_mappings`. -/
def sentinelEntry : MmuInitialMapping :=
  { phys := 0, virt := 0, size := 0, flags := 0, name := none }

/-- The static table `mmu_initial_mappings` from the source: the dynamic
"ram" entry, the "uart" device entry, and the all-zero sentinel. -/
def mmu_initial_mappings (c : PlatformConfig) : List MmuInitialMapping :=
  [ { phys := c.MEMBASE + c.KERNEL_LOAD_OFFSET,
      virt := c.KERNEL_BASE + c.KERNEL_LOAD_OFFSET,
      size := c.MEMSIZE,
      flags := MMU_INITIAL_MAPPING_FLAG_DYNAMIC,
      name := some "ram" },
    { phys := c.TEGRA_UARTA_BASE,
      virt := c.KERNEL_BASE + c.KERNEL_LOAD_OFFSET + c.TEGRA_UARTA_BASE,
      size := c.TEGRA_UARTA_SIZE,
      flags := MMU_INITIAL_MAPPING_FLAG_DEVICE,
      name := some "uart" },
    sentinelEntry ]

/-- The RAM Region Descriptor (`pmm_arena_t ram_arena` in the source). -/
structure PmmArena where
  name : String
  base : Nat
  size : Nat
  flags : Nat
deriving DecidableEq, Repr

/-- Build-time default value of `ram_arena`. -/
def ram_arena (c : PlatformConfig) : PmmArena :=
  { name := "ram",
    base := c.MEMBASE + c.KERNEL_LOAD_OFFSET,
    size := c.MEMSIZE,
    flags := PMM_ARENA_FLAG_KMAP }

/-- Does this entry match the resolver's search: dynamic flag set and name
equal to the descriptor's name?  (The C code only reaches the `strcmp`
when the dynamic flag is set.) -/
def isDynMatch (name : String) (m : MmuInitialMapping) : Bool :=
  (m.flags &&& MMU_INITIAL_MAPPING_FLAG_DYNAMIC != 0) && (m.name == some name)

/-- The search loop of `platform_init_mmu_mappings`: walk the table; skip
entries without the dynamic flag; on the first entry whose name compares
equal to `name`, stop (the C `break`).  Returns the entry found, if any,
together with the list of `name` fields that were passed to `strcmp`
(recorded in loop order, to reason about which names are dereferenced). -/
def resolveLoop (name : String) :
    List MmuInitialMapping → Option MmuInitialMapping × List (Option String)
  | [] => (none, [])
  | m :: rest =>
    if m.flags &&& MMU_INITIAL_MAPPING_FLAG_DYNAMIC = 0 then
      resolveLoop name rest
    else if m.name = some name then
      (some m, [m.name])
    else
      let r := resolveLoop name rest
      (r.1, m.name :: r.2)

/-- Observable outcome of one run of `platform_init_mmu_mappings`. -/
structure ResolverRun where
  /-- Final value of `ram_arena` after the run. -/
  arena : PmmArena
  /-- Arguments of the `pmm_add_arena` calls made, in order. -/
  registrations : List PmmArena
  /-- The `name` fields handed to `strcmp` during the search, in order. -/
  strcmpNames : List (Option String)
  /-- How many times the descriptor was overwritten. -/
  writes : Nat
  /-- Whether the function ran to completion and returned to its caller. -/
  returned : Bool
deriving Repr

/-- `platform_init_mmu_mappings`: find the first dynamic entry matching
`arena0.name`, overwrite the descriptor's base, size and flags from it if
found, then call `pmm_add_arena` once.  The allocator's status is not
inspected: the function returns unconditionally. -/
def platform_init_mmu_mappings (table : List MmuInitialMapping)
    (arena0 : PmmArena) (pmm_add_arena : PmmArena → Int) : ResolverRun :=
  let r := resolveLoop arena0.name table
  let arena1 := match r.1 with
    | some m =>
      { arena0 with base := m.phys, size := m.size,
                    flags := PMM_ARENA_FLAG_KMAP }
    | none => arena0
  let _status := pmm_add_arena arena1
  { arena := arena1,
    registrations := [arena1],
    strcmpNames := r.2,
    writes := match r.1 with | some _ => 1 | none => 0,
    returned := true }

/-- One request made to `vmm_alloc_physical`: the arguments as passed at
the call site (name, size, requested virtual address, alignment log2,
physical address, vmm placement flags, arch mmu flags). -/
structure VmmCall where
  name : String
  size : Nat
  vaddr : Nat
  alignLog2 : Nat
  paddr : Nat
  vmmFlags : Nat
  archMmuFlags : Nat
deriving DecidableEq, Repr

/-- Observable actions of the bring-up code: calls to external
collaborators and diagnostics. -/
inductive Event where
  /-- A `vmm_alloc_physical` request. -/
  | vmmAlloc (call : VmmCall) : Event
  /-- A `dprintf` diagnostic carrying the emitting function's name and the
  numeric error it reports. -/
  | diag (level : Nat) (fn : String) (err : Int) : Event
  /-- The informational `dprintf` printing the gicc and gicd bases. -/
  | diagGicBases (gicc gicd : Nat) : Event
  /-- A `tegra_smc` secure monitor call with its four arguments. -/
  | smcCall (fid : Nat) (a0 a1 a2 : Nat) : Event
  /-- The `arm_gic_init` call. -/
  | gicInit : Event
  /-- The `arm_generic_timer_init` call with its arguments. -/
  | timerInit (irq : Nat) (flags : Nat) : Event
deriving DecidableEq, Repr

/-- The `vmm_alloc_physical` request built inside `tegra_map_regs`.  Note
that the source hardcodes the name `"gic"` and the size `GICC_SIZE` here,
ignoring the function's own `name` and `size` parameters. -/
def mapRegsCall (c : PlatformConfig) (vaddr paddr : Nat) : VmmCall :=
  { name := "gic",
    size := c.GICC_SIZE,
    vaddr := vaddr,
    alignLog2 := 0,
    paddr := paddr,
    vmmFlags := VMM_FLAG_VALLOC_SPECIFIC,
    archMmuFlags := ARCH_MMU_FLAG_UNCACHED_DEVICE }

/-- `tegra_map_regs`: issue one `vmm_alloc_physical` request and, when the
returned status is nonzero, emit one CRITICAL diagnostic carrying that
status.  `vmm` is the virtual memory manager oracle giving the status of
each request.  The `name` and `size` parameters are accepted but, as in
the source, not used in the request. -/
def tegra_map_regs (c : PlatformConfig) (vmm : VmmCall → Int)
    (name : String) (vaddr paddr size : Nat) : List Event :=
  let call := mapRegsCall c vaddr paddr
  let ret := vmm call
  Event.vmmAlloc call ::
    (if ret ≠ 0 then [Event.diag CRITICAL "tegra_map_regs" ret] else [])

/-- Modelled from the spec: the 32-bit secure-monitor function id meaning
"get register base", defined in `smc.h` which is not part of the provided
sources.  The spec requires only that the 32-bit and 64-bit ids are
distinct. -/
def SMC_FC_GET_REG_BASE : Nat := 0x32000001

/-- Modelled from the spec: the 64-bit secure-monitor function id meaning
"get register base", defined in `smc.h` which is not part of the provided
sources; distinct from the 32-bit id. -/
def SMC_FC64_GET_REG_BASE : Nat := 0x72000001

/-- Modelled from the spec: the register-block identifier for the GIC CPU
interface, defined in `smc.h` which is not part of the provided sources. -/
def SMC_GET_GIC_BASE_GICC : Nat := 0

/-- Modelled from the spec: the register-block identifier for the GIC
distributor, defined in `smc.h` which is not part of the provided
sources; distinct from the GICC identifier. -/
def SMC_GET_GIC_BASE_GICD : Nat := 1

/-- `tegra_get_reg_base`: one secure monitor call per invocation, passing
the register-block identifier and three zeros; the function id is chosen
at compile time by `ARCH_ARM64`.  `smc` is the secure-monitor transport
oracle; the returned address is passed back unchanged, together with the
trace of the single call made. -/
def tegra_get_reg_base (c : PlatformConfig)
    (smc : Nat → Nat → Nat → Nat → Nat) (reg : Nat) : Nat × List Event :=
  let fid := if c.ARCH_ARM64 then SMC_FC64_GET_REG_BASE
             else SMC_FC_GET_REG_BASE
  (smc fid reg 0 0, [Event.smcCall fid reg 0 0])

/-- Stage A, `platform_during_vm_init`: map one page of the UART register
range, uncached device, letting the vmm choose the virtual address
(placement flags 0). -/
def platform_during_vm_init (c : PlatformConfig)
    (vmm : VmmCall → Int) : List Event :=
  let paddr := c.PAGE_SIZE * (c.TEGRA_UARTA_BASE / c.PAGE_SIZE)
  let call : VmmCall :=
    { name := "uart",
      size := c.PAGE_SIZE,
      vaddr := 0,
      alignLog2 := c.PAGE_SIZE_SHIFT,
      paddr := paddr,
      vmmFlags := 0,
      archMmuFlags := ARCH_MMU_FLAG_UNCACHED_DEVICE }
  let err := vmm call
  Event.vmmAlloc call ::
    (if err ≠ 0 then [Event.diag CRITICAL "platform_during_vm_init" err]
     else [])

/-- Stage B, `platform_after_vm_init`: query the GICC and GICD bases via
the secure register locator, print them, map both register blocks, then
initialize the interrupt controller and the generic timer. -/
def platform_after_vm_init (c : PlatformConfig)
    (smc : Nat → Nat → Nat → Nat → Nat) (vmm : VmmCall → Int) :
    List Event :=
  let gcc := tegra_get_reg_base c smc SMC_GET_GIC_BASE_GICC
  let gcd := tegra_get_reg_base c smc SMC_GET_GIC_BASE_GICD
  gcc.2 ++ gcd.2 ++
    [Event.diagGicBases gcc.1 gcd.1] ++
    tegra_map_regs c vmm "gicc" c.GICC_BASE_VIRT gcc.1 c.GICC_SIZE ++
    tegra_map_regs c vmm "gicd" c.GICD_BASE_VIRT gcd.1 c.GICD_SIZE ++
    [Event.gicInit, Event.timerInit c.ARM_GENERIC_TIMER_INT 0]

/-- An LK init hook registration: a name and an ordering level. -/
structure InitHook where
  name : String
  level : Nat
deriving DecidableEq, Repr

/-- The `LK_INIT_HOOK(platform_during_vm, ..., LK_INIT_LEVEL_VM + 1)`
registration. -/
def platform_during_vm_hook (c : PlatformConfig) : InitHook :=
  { name := "platform_during_vm", level := c.LK_INIT_LEVEL_VM + 1 }

/-- The `LK_INIT_HOOK(platform_after_vm, ..., LK_INIT_LEVEL_VM + 2)`
registration. -/
def platform_after_vm_hook (c : PlatformConfig) : InitHook :=
  { name := "platform_after_vm", level := c.LK_INIT_LEVEL_VM + 2 }

/-- The hooks this file registers with the init registry. -/
def registered_hooks (c : PlatformConfig) : List InitHook :=
  [platform_during_vm_hook c, platform_after_vm_hook c]

/-- Modelled from the spec: the boot-time initialization hook registry
(`lk/init.h`, not part of the provided sources) "guarantees callbacks run
in non-decreasing level order exactly once during boot".  A `run` is a
valid boot schedule for `registered` when it runs exactly the registered
hooks (a permutation) and its levels are non-decreasing. -/
def RunsHooksInOrder (registered run : List InitHook) : Prop :=
  run.Perm registered ∧ run.Sorted (fun a b => a.level ≤ b.level)

instance (registered run : List InitHook) :
    Decidable (RunsHooksInOrder registered run) := by
  unfold RunsHooksInOrder; infer_instance

/-! Concrete fixtures, used to evaluate the embedding at the concrete
scenarios of the specification (testable properties 7 and 8). -/

/-- A concrete build configuration for evaluating the embedding. -/
def c0 : PlatformConfig :=
  { MEMBASE := 0x80000000,
    KERNEL_LOAD_OFFSET := 0,
    MEMSIZE := 0x08000000,
    KERNEL_BASE := 0xffffffff00000000,
    TEGRA_UARTA_BASE := 0x70006000,
    TEGRA_UARTA_SIZE := 0x40,
    GICC_BASE_VIRT := 0xffffffff50041000,
    GICD_BASE_VIRT := 0xffffffff50051000,
    GICC_SIZE := 0x2000,
    GICD_SIZE := 0x1000,
    PAGE_SIZE := 0x1000,
    PAGE_SIZE_SHIFT := 12,
    LK_INIT_LEVEL_VM := 0x50000,
    ARM_GENERIC_TIMER_INT := 27,
    ARCH_ARM64 := true }

/-- The concrete memory-map table of testable property 7 of the spec. -/
def specTable : List MmuInitialMapping :=
  [ { phys := 0x80000000, virt := 0xffffffff80000000, size := 0x40000000,
      flags := MMU_INITIAL_MAPPING_FLAG_DYNAMIC, name := some "ram" },
    { phys := 0x70006000, virt := 0xffffffff70006000, size := 0x40,
      flags := MMU_INITIAL_MAPPING_FLAG_DEVICE, name := some "uart" },
    sentinelEntry ]

/-- The concrete default descriptor of testable property 7 of the spec. -/
def specArena : PmmArena :=
  { name := "ram", base := 0, size := 0x08000000,
    flags := PMM_ARENA_FLAG_KMAP }

/-- The secure-monitor mock of testable property 8 of the spec: gicc at
0x50041000, gicd at 0x50051000. -/
def smc0 : Nat → Nat → Nat → Nat → Nat := fun _ a0 _ _ =>
  if a0 = SMC_GET_GIC_BASE_GICC then 0x50041000 else 0x50051000

/-- A virtual memory manager oracle that accepts every request. -/
def vmmOk : VmmCall → Int := fun _ => 0

/-- A physical-memory allocator oracle that accepts every registration. -/
def vmmOkAlloc : PmmArena → Int := fun _ => 0

/-- A physical-memory allocator oracle that rejects every registration
with a nonzero status. -/
def rejectAlloc : PmmArena → Int := fun _ => -1

/-- A dynamic "ram" entry used to build a table with duplicate matches. -/
def ramEntryA : MmuInitialMapping :=
  { phys := 0x1000, virt := 0, size := 0x2000,
    flags := MMU_INITIAL_MAPPING_FLAG_DYNAMIC, name := some "ram" }

/-- A second, different dynamic "ram" entry. -/
def ramEntryB : MmuInitialMapping :=
  { phys := 0x9000, virt := 0, size := 0x4000,
    flags := MMU_INITIAL_MAPPING_FLAG_DYNAMIC, name := some "ram" }

/-- A table with two dynamic entries both named "ram", then the
sentinel. -/
def twoRamTable : List MmuInitialMapping :=
  [ramEntryA, ramEntryB, sentinelEntry]

/-- A virtual memory manager oracle that fails the request at physical
address 0x50041000 (the gicc range) with status -5 and accepts the rest. -/
def vmmFailGicc : VmmCall → Int := fun call =>
  if call.paddr = 0x50041000 then -5 else 0

end Tegra

namespace Tegra

theorem resolveLoop_fst_eq_head_filter (name : String)
    (table : List MmuInitialMapping) :
    (resolveLoop name table).1 = (table.filter (isDynMatch name)).head? := by
  induction table with
  | nil => rfl
  | cons m rest ih =>
    by_cases hdyn : m.flags &&& MMU_INITIAL_MAPPING_FLAG_DYNAMIC = 0
    · have hmatch : isDynMatch name m = false := by
        simp [isDynMatch, hdyn]
      simp [resolveLoop, hdyn, hmatch, ih]
    · by_cases hname : m.name = some name
      · have hmatch : isDynMatch name m = true := by
          simp [isDynMatch, hdyn, hname]
        simp [resolveLoop, hdyn, hname, hmatch]
      · have hmatch : isDynMatch name m = false := by
          simp [isDynMatch, hname]
        simp [resolveLoop, hdyn, hname, hmatch, ih]

/-- C1: for every table containing exactly one entry whose dynamic flag is
set and whose name equals the descriptor's name, after
`platform_init_mmu_mappings` runs the descriptor's base equals that
entry's physical base, its size equals that entry's size, and its flags
equal exactly the kernel-mapped flag. -/
theorem ram_arena_resolved_from_unique_dynamic_entry
    (table : List MmuInitialMapping) (arena0 : PmmArena)
    (alloc : PmmArena → Int) (e : MmuInitialMapping)
    (h : table.filter (isDynMatch arena0.name) = [e]) :
    (platform_init_mmu_mappings table arena0 alloc).arena.base = e.phys ∧
    (platform_init_mmu_mappings table arena0 alloc).arena.size = e.size ∧
    (platform_init_mmu_mappings table arena0 alloc).arena.flags =
      PMM_ARENA_FLAG_KMAP := by
  have hfind : (resolveLoop arena0.name table).1 = some e := by
    rw [resolveLoop_fst_eq_head_filter, h]; rfl
  simp [platform_init_mmu_mappings, hfind]

theorem ram_arena_resolved_from_unique_dynamic_entry_witness :
    specTable.filter (isDynMatch specArena.name) =
      [{ phys := 0x80000000, virt := 0xffffffff80000000, size := 0x40000000,
         flags := MMU_INITIAL_MAPPING_FLAG_DYNAMIC, name := some "ram" }] ∧
    ((platform_init_mmu_mappings specTable specArena vmmOkAlloc).arena.base =
        0x80000000 ∧
      (platform_init_mmu_mappings specTable specArena vmmOkAlloc).arena.size =
        0x40000000 ∧
      (platform_init_mmu_mappings specTable specArena vmmOkAlloc).arena.flags =
        PMM_ARENA_FLAG_KMAP) :=
  ⟨by decide,
   ram_arena_resolved_from_unique_dynamic_entry specTable specArena
     vmmOkAlloc
     { phys := 0x80000000, virt := 0xffffffff80000000, size := 0x40000000,
       flags := MMU_INITIAL_MAPPING_FLAG_DYNAMIC, name := some "ram" }
     (by decide)⟩

/-- C4: for every table containing no entry that is dynamic and matches
the descriptor's name, after `platform_init_mmu_mappings` runs the
descriptor's base and size are unchanged from their build-time
defaults. -/
theorem ram_arena_unchanged_without_dynamic_match
    (table : List MmuInitialMapping) (arena0 : PmmArena)
    (alloc : PmmArena → Int)
    (h : table.filter (isDynMatch arena0.name) = []) :
    (platform_init_mmu_mappings table arena0 alloc).arena.base =
      arena0.base ∧
    (platform_init_mmu_mappings table arena0 alloc).arena.size =
      arena0.size := by
  have hfind : (resolveLoop arena0.name table).1 = none := by
    rw [resolveLoop_fst_eq_head_filter, h]; rfl
  simp [platform_init_mmu_mappings, hfind]

theorem ram_arena_unchanged_without_dynamic_match_witness :
    (specTable.drop 1).filter (isDynMatch specArena.name) = [] ∧
    ((platform_init_mmu_mappings (specTable.drop 1) specArena
        vmmOkAlloc).arena.base = specArena.base ∧
      (platform_init_mmu_mappings (specTable.drop 1) specArena
        vmmOkAlloc).arena.size = specArena.size) :=
  ⟨by decide,
   ram_arena_unchanged_without_dynamic_match (specTable.drop 1) specArena
     vmmOkAlloc (by decide)⟩

/-- C6: in every run of `platform_init_mmu_mappings` the arena
registration `pmm_add_arena` is invoked exactly once, whether or not a
matching dynamic entry was found. -/
theorem pmm_add_arena_called_exactly_once
    (table : List MmuInitialMapping) (arena0 : PmmArena)
    (alloc : PmmArena → Int) :
    (platform_init_mmu_mappings table arena0 alloc).registrations.length
      = 1 := by
  simp [platform_init_mmu_mappings]

/-- C10: for every table in which two or more entries are dynamic and
match the descriptor's name, the resolver copies base and size from the
first such entry in table order, and the descriptor is written at most
once per run. -/
theorem first_dynamic_match_wins
    (table : List MmuInitialMapping) (arena0 : PmmArena)
    (alloc : PmmArena → Int) (e1 e2 : MmuInitialMapping)
    (rest : List MmuInitialMapping)
    (h : table.filter (isDynMatch arena0.name) = e1 :: e2 :: rest) :
    (platform_init_mmu_mappings table arena0 alloc).arena.base = e1.phys ∧
    (platform_init_mmu_mappings table arena0 alloc).arena.size = e1.size ∧
    (platform_init_mmu_mappings table arena0 alloc).writes ≤ 1 := by
  have hfind : (resolveLoop arena0.name table).1 = some e1 := by
    rw [resolveLoop_fst_eq_head_filter, h]; rfl
  simp [platform_init_mmu_mappings, hfind]

theorem first_dynamic_match_wins_witness :
    (twoRamTable.filter (isDynMatch specArena.name) =
      ramEntryA :: ramEntryB :: []) ∧
    ((platform_init_mmu_mappings twoRamTable specArena
        vmmOkAlloc).arena.base = ramEntryA.phys ∧
      (platform_init_mmu_mappings twoRamTable specArena
        vmmOkAlloc).arena.size = ramEntryA.size ∧
      (platform_init_mmu_mappings twoRamTable specArena
        vmmOkAlloc).writes ≤ 1) :=
  ⟨by decide,
   first_dynamic_match_wins twoRamTable specArena vmmOkAlloc
     ramEntryA ramEntryB [] (by decide)⟩

/-- C5: running the resolver's search on the program's static table, for
any configuration and any descriptor name, never matches the all-zero
sentinel entry as a dynamic entry, and never passes the sentinel's null
name to the string comparison. -/
theorem sentinel_never_matched_nor_compared
    (c : PlatformConfig) (n : String) :
    (resolveLoop n (mmu_initial_mappings c)).1 ≠ some sentinelEntry ∧
    sentinelEntry.name ∉ (resolveLoop n (mmu_initial_mappings c)).2 := by
  by_cases hn : n = "ram"
  · subst hn
    simp [mmu_initial_mappings, resolveLoop, sentinelEntry,
      MMU_INITIAL_MAPPING_FLAG_DYNAMIC, MMU_INITIAL_MAPPING_FLAG_DEVICE]
  · have hne : ¬ (some "ram" = some n) := by simpa using fun h => hn h.symm
    simp [mmu_initial_mappings, resolveLoop, sentinelEntry, hne,
      MMU_INITIAL_MAPPING_FLAG_DYNAMIC, MMU_INITIAL_MAPPING_FLAG_DEVICE,
      (by decide : (4 : Nat) &&& 8 = 0), (by decide : (0 : Nat) &&& 8 = 0)]

/-- C3 counterexample: with an allocator that rejects the registration of
a zero-size descriptor, `platform_init_mmu_mappings` does not halt or
loop: it still runs to completion and returns, having made exactly one
(rejected) registration call. -/
theorem resolver_returns_even_when_registration_rejected :
    (platform_init_mmu_mappings []
        { name := "ram", base := 0, size := 0,
          flags := PMM_ARENA_FLAG_KMAP }
        rejectAlloc).returned = true ∧
    (platform_init_mmu_mappings []
        { name := "ram", base := 0, size := 0,
          flags := PMM_ARENA_FLAG_KMAP }
        rejectAlloc).registrations.length = 1 ∧
    rejectAlloc (platform_init_mmu_mappings []
        { name := "ram", base := 0, size := 0,
          flags := PMM_ARENA_FLAG_KMAP }
        rejectAlloc).arena ≠ 0 := by
  refine ⟨rfl, rfl, ?_⟩; decide

/-- C3 amended: the resolver registers the arena exactly once with no
retry, never inspects the allocator's status, and returns normally
whatever that status is — its entire observable outcome is independent of
the allocator oracle, so any halt on a rejected registration would have
to come from the allocator itself, not from this function. -/
theorem resolver_ignores_registration_status
    (table : List MmuInitialMapping) (arena0 : PmmArena)
    (alloc : PmmArena → Int) :
    (platform_init_mmu_mappings table arena0 alloc).returned = true ∧
    (platform_init_mmu_mappings table arena0 alloc).registrations.length
      = 1 ∧
    platform_init_mmu_mappings table arena0 alloc =
      platform_init_mmu_mappings table arena0 (fun _ => 0) := by
  exact ⟨rfl, by simp [platform_init_mmu_mappings], rfl⟩

/-- C2 (code-bug evidence): in the concrete Stage B run with the spec's
mock locator, the recorded GICD mapping request is built by
`mapRegsCall`, whose name field is the hardcoded "gic" — not the "gicd"
passed by the caller — and whose size field is `GICC_SIZE`, not the
`GICD_SIZE` the caller passed; on a configuration where the two sizes
differ, the mapping therefore does not cover the distributor's size. -/
theorem gicd_mapping_request_ignores_name_and_size :
    tegra_map_regs c0 vmmOk "gicd" c0.GICD_BASE_VIRT 0x50051000
        c0.GICD_SIZE =
      [Event.vmmAlloc (mapRegsCall c0 c0.GICD_BASE_VIRT 0x50051000)] ∧
    (platform_after_vm_init c0 smc0 vmmOk).get? 4 =
      some (Event.vmmAlloc (mapRegsCall c0 c0.GICD_BASE_VIRT 0x50051000)) ∧
    (mapRegsCall c0 c0.GICD_BASE_VIRT 0x50051000).name = "gic" ∧
    (mapRegsCall c0 c0.GICD_BASE_VIRT 0x50051000).size = c0.GICC_SIZE ∧
    c0.GICC_SIZE ≠ c0.GICD_SIZE := by
  refine ⟨rfl, rfl, rfl, rfl, by decide⟩

/-- C8: whenever the vmm reports a nonzero status `r` for the GICC
mapping request, Stage B's trace contains, in order, a CRITICAL
diagnostic carrying `r`, then the GICD mapping request, then the
interrupt-controller initialization — failure of the first mapping aborts
nothing. -/
theorem gicc_failure_is_logged_and_stage_b_continues
    (c : PlatformConfig) (smc : Nat → Nat → Nat → Nat → Nat)
    (vmm : VmmCall → Int) (r : Int)
    (hr : vmm (mapRegsCall c c.GICC_BASE_VIRT
            (tegra_get_reg_base c smc SMC_GET_GIC_BASE_GICC).1) = r)
    (hnz : r ≠ 0) :
    List.Sublist
      [Event.diag CRITICAL "tegra_map_regs" r,
       Event.vmmAlloc (mapRegsCall c c.GICD_BASE_VIRT
          (tegra_get_reg_base c smc SMC_GET_GIC_BASE_GICD).1),
       Event.gicInit]
      (platform_after_vm_init c smc vmm) := by
  have hr' : vmm (mapRegsCall c c.GICC_BASE_VIRT
      (smc (if c.ARCH_ARM64 then SMC_FC64_GET_REG_BASE
        else SMC_FC_GET_REG_BASE) SMC_GET_GIC_BASE_GICC 0 0)) = r := by
    simpa [tegra_get_reg_base] using hr
  simp only [platform_after_vm_init, tegra_map_regs, tegra_get_reg_base,
    hr', ne_eq, hnz, not_false_eq_true, if_true, List.cons_append,
    List.nil_append, List.singleton_append]
  by_cases h2 : vmm (mapRegsCall c c.GICD_BASE_VIRT
      (smc (if c.ARCH_ARM64 then SMC_FC64_GET_REG_BASE
        else SMC_FC_GET_REG_BASE) SMC_GET_GIC_BASE_GICD 0 0)) = 0
  · simp only [h2, not_true_eq_false, if_false, List.cons_append,
      List.nil_append, List.singleton_append]
    exact .cons _ (.cons _ (.cons _ (.cons _ (.cons₂ _ (.cons₂ _
      (.cons₂ _ (List.nil_sublist _)))))))
  · simp only [h2, not_false_eq_true, if_true, List.cons_append,
      List.nil_append, List.singleton_append]
    exact .cons _ (.cons _ (.cons _ (.cons _ (.cons₂ _ (.cons₂ _
      (.cons _ (.cons₂ _ (List.nil_sublist _))))))))

theorem gicc_failure_is_logged_and_stage_b_continues_witness :
    (vmmFailGicc (mapRegsCall c0 c0.GICC_BASE_VIRT
        (tegra_get_reg_base c0 smc0 SMC_GET_GIC_BASE_GICC).1) = -5 ∧
      (-5 : Int) ≠ 0) ∧
    List.Sublist
      [Event.diag CRITICAL "tegra_map_regs" (-5),
       Event.vmmAlloc (mapRegsCall c0 c0.GICD_BASE_VIRT
          (tegra_get_reg_base c0 smc0 SMC_GET_GIC_BASE_GICD).1),
       Event.gicInit]
      (platform_after_vm_init c0 smc0 vmmFailGicc) :=
  ⟨⟨by decide, by decide⟩,
   gicc_failure_is_logged_and_stage_b_continues c0 smc0 vmmFailGicc (-5)
     (by decide) (by decide)⟩

/-- C9: every invocation of `tegra_get_reg_base` makes exactly one secure
monitor call, passing the register-block identifier first and zeros for
the remaining arguments, with the function id chosen by the compile-time
architecture width (and the two ids distinct); the shape of the call is
the same for both widths, and the address the transport returns is
returned unchanged. -/
theorem tegra_get_reg_base_single_fresh_smc
    (c : PlatformConfig) (smc : Nat → Nat → Nat → Nat → Nat) (reg : Nat) :
    (tegra_get_reg_base c smc reg).2 =
      [Event.smcCall (if c.ARCH_ARM64 then SMC_FC64_GET_REG_BASE
          else SMC_FC_GET_REG_BASE) reg 0 0] ∧
    (tegra_get_reg_base c smc reg).1 =
      smc (if c.ARCH_ARM64 then SMC_FC64_GET_REG_BASE
          else SMC_FC_GET_REG_BASE) reg 0 0 ∧
    SMC_FC64_GET_REG_BASE ≠ SMC_FC_GET_REG_BASE := by
  refine ⟨rfl, rfl, by decide⟩

/-- C7: any boot schedule that runs the registered hooks exactly once in
non-decreasing level order (the init registry's guarantee) runs the
Stage A hook, registered at level VM+1, strictly before the Stage B hook,
registered at level VM+2 — indeed the only valid schedule is Stage A then
Stage B. -/
theorem stage_a_runs_before_stage_b (c : PlatformConfig)
    (run : List InitHook)
    (h : RunsHooksInOrder (registered_hooks c) run) :
    run = [platform_during_vm_hook c, platform_after_vm_hook c] := by
  obtain ⟨hperm, hsort⟩ := h
  simp only [registered_hooks] at hperm
  obtain ⟨x, y, hxy⟩ := List.length_eq_two.mp hperm.length_eq
  subst hxy
  have hA : platform_during_vm_hook c ∈ [x, y] :=
    hperm.mem_iff.mpr (by simp)
  have hB : platform_after_vm_hook c ∈ [x, y] :=
    hperm.mem_iff.mpr (by simp)
  have hAB : platform_during_vm_hook c ≠ platform_after_vm_hook c := by
    simp [platform_during_vm_hook, platform_after_vm_hook]
  simp only [List.mem_cons, List.mem_singleton, List.not_mem_nil,
    or_false] at hA hB
  rcases hA with hA | hA <;> rcases hB with hB | hB
  · exact absurd (hA.trans hB.symm) hAB
  · rw [← hA, ← hB]
  · exfalso
    rw [← hA, ← hB] at hsort
    have hle := (List.sorted_cons.mp hsort).1 (platform_during_vm_hook c)
      (List.mem_singleton.mpr rfl)
    simp [platform_during_vm_hook, platform_after_vm_hook] at hle
  · exact absurd (hA.trans hB.symm) hAB

theorem stage_a_runs_before_stage_b_witness :
    RunsHooksInOrder (registered_hooks c0)
      [platform_during_vm_hook c0, platform_after_vm_hook c0] ∧
    [platform_during_vm_hook c0, platform_after_vm_hook c0] =
      [platform_during_vm_hook c0, platform_after_vm_hook c0] :=
  ⟨by decide,
   stage_a_runs_before_stage_b c0
     [platform_during_vm_hook c0, platform_after_vm_hook c0] (by decide)⟩

end Tegra
